import Mathlib

/-
Verification of the launcher script run.py of the booking-service
repository.  The script is embedded shallowly: the ambient operating
system state that the script consults (search path, directory existence,
subprocess exit codes, parent environment, interrupt timing) is made an
explicit `World` record, and `main` becomes a pure function from parsed
arguments and a world to a `Result` holding the process exit status and
the ordered trace of observable events (console lines, subprocess spawns
with their environment, subprocess completions, termination attempts).
-/

namespace RunPy

/-- Parsed command line options, mirroring the three argparse flags of
run.py: `--dev` (store true), `--port` (int, default 3001) and
`--force-install` (store true). -/
structure Args where
  dev : Bool
  port : Int
  force_install : Bool

/-- The ambient state the script consults.  `os_name` models `os.name`;
`which c` models `shutil.which(c) is not None`; `node_modules_isdir`
models `os.path.isdir("node_modules")`; `install_exit` is the exit code
of `npm install` when it is spawned; `service_exit` is the exit code of
the service child when it is waited on; `environ` is the parent process
environment `os.environ`; `interrupt_during_spawn` means a
KeyboardInterrupt arrives inside `subprocess.Popen`, before the local
variable `proc` is bound; `interrupt_during_wait` means a
KeyboardInterrupt arrives during `proc.wait()`; `terminate_raises` means
the call `proc.terminate()` raises an Exception when it is attempted on
a bound handle. -/
structure World where
  os_name : String
  which : String → Bool
  node_modules_isdir : Bool
  install_exit : Int
  service_exit : Int
  environ : String → Option String
  interrupt_during_spawn : Bool
  interrupt_during_wait : Bool
  terminate_raises : Bool

/-- Line 9 of run.py: `name + ".cmd" if os.name == "nt" else name`. -/
def exe (w : World) (name : String) : String :=
  if w.os_name = "nt" then name ++ ".cmd" else name

/-- Line 12 of run.py: `shutil.which(cmd) is not None`. -/
def check_cmd (w : World) (cmd : String) : Bool :=
  w.which cmd

/-- Observable events of one run, in program order. -/
inductive Event where
  /-- A line printed to stdout. -/
  | printed (s : String)
  /-- A line printed to stderr. -/
  | printedErr (s : String)
  /-- A subprocess spawned with the given argv and environment. -/
  | spawned (cmd : List String) (env : String → Option String)
  /-- The most recently spawned subprocess completed with this code. -/
  | exited (code : Int)
  /-- An attempt to call terminate on the child; `ok` is false when the
  call raised an Exception, which the script swallows. -/
  | terminated (ok : Bool)

/-- The outcome of one run: the process exit status of the launcher and
the trace of events in order. -/
structure Result where
  exitCode : Int
  events : List Event

def node_err : String :=
  "ERROR: Node.js not found in PATH. Install Node 18+ and try again."

def npm_err : String := "ERROR: npm not found in PATH."

def install_msg : String := "Installing dependencies (npm install)..."

def stopping_msg : String := "\nStopping..."

/-- Lines 36 and 37 of run.py: `env = os.environ.copy()` followed by
`env["PORT"] = str(args.port)`. -/
def child_env (a : Args) (w : World) : String → Option String :=
  fun k => if k = "PORT" then some (toString a.port) else w.environ k

/-- Line 39 of run.py: the service argv. -/
def service_cmd (a : Args) (w : World) : List String :=
  if a.dev then [exe w "npm", "run", "dev"] else [exe w "npm", "start"]

/-- Line 40 of run.py: the status line printed before the spawn. -/
def status_line (a : Args) : String :=
  "Starting Booking service on port " ++ toString a.port ++ " ("
    ++ (if a.dev then "dev" else "start") ++ ")..."

/-- Lines 36 to 50 of run.py: build the child environment, print the
status line, spawn the service child inside the try block, wait on it
and propagate its return code; on KeyboardInterrupt print a notice and
attempt a best effort terminate whose failure is swallowed, after which
main returns and the interpreter exits with status 0.  When the
interrupt lands inside Popen the handle is unbound, so the terminate
attempt raises and is swallowed (`ok := false`). -/
def startService (a : Args) (w : World) (pre : List Event) : Result :=
  let env := child_env a w
  let cmd := service_cmd a w
  let pre2 := pre ++ [Event.printed (status_line a)]
  if w.interrupt_during_spawn then
    ⟨0, pre2 ++ [Event.printed stopping_msg, Event.terminated false]⟩
  else if w.interrupt_during_wait then
    ⟨0, pre2 ++ [Event.spawned cmd env, Event.printed stopping_msg,
                 Event.terminated (!w.terminate_raises)]⟩
  else
    ⟨w.service_exit, pre2 ++ [Event.spawned cmd env, Event.exited w.service_exit]⟩

/-- Lines 22 to 50 of run.py, after argument parsing.  Both toolchain
checks run first; note that the node check searches the bare name while
the npm check searches the exe mapped name.  Then the install step runs
when forced or when node_modules is absent, exiting with the installer
code on failure; finally the service is started. -/
def main (a : Args) (w : World) : Result :=
  if check_cmd w "node" = false then
    ⟨1, [Event.printedErr node_err]⟩
  else if check_cmd w (exe w "npm") = false then
    ⟨1, [Event.printedErr npm_err]⟩
  else
    let need_install : Bool := a.force_install || !w.node_modules_isdir
    if need_install then
      let pre : List Event :=
        [Event.printed install_msg,
         Event.spawned [exe w "npm", "install"] w.environ,
         Event.exited w.install_exit]
      if w.install_exit ≠ 0 then ⟨w.install_exit, pre⟩
      else startService a w pre
    else startService a w []

/-- Recognises the spawn of the installer: its argv has "install" in
second position. -/
def isInstallSpawn : Event → Bool
  | Event.spawned (_ :: "install" :: _) _ => true
  | _ => false

/-- Recognises the spawn of the service child: its argv has "run" or
"start" in second position. -/
def isServiceSpawn : Event → Bool
  | Event.spawned (_ :: "run" :: _) _ => true
  | Event.spawned (_ :: "start" :: _) _ => true
  | _ => false

/-- Recognises any subprocess spawn. -/
def isSpawn : Event → Bool
  | Event.spawned _ _ => true
  | _ => false

/-- A default set of arguments for concrete runs. -/
def args0 : Args := { dev := false, port := 3001, force_install := false }

/-- A baseline posix world where both tools are found, node_modules is
present, every subprocess succeeds and no interrupt occurs. -/
def w0 : World :=
  { os_name := "posix"
  , which := fun s => s == "node" || s == "npm"
  , node_modules_isdir := true
  , install_exit := 0
  , service_exit := 0
  , environ := fun k => if k = "HOME" then some "/home/u" else none
  , interrupt_during_spawn := false
  , interrupt_during_wait := false
  , terminate_raises := false }

/-- The installer trace prefix produced when the install step runs. -/
def installPre (w : World) : List Event :=
  [Event.printed install_msg,
   Event.spawned [exe w "npm", "install"] w.environ,
   Event.exited w.install_exit]

/-- A world where both tools are found, node_modules is absent and the
installer fails with code 7. -/
def w2 : World := { w0 with node_modules_isdir := false, install_exit := 7 }

/-- A world whose service child exits with 42. -/
def w3 : World := { w0 with service_exit := 42 }

/-- Dev mode arguments with port 8080. -/
def a4 : Args := { dev := true, port := 8080, force_install := false }

/-- A world where no executable at all is on the search path. -/
def w5 : World := { w0 with which := fun _ => false }

/-- A Windows world where only the suffix mapped names node.cmd and
npm.cmd are on the search path, not the bare names. -/
def w6 : World :=
  { os_name := "nt"
  , which := fun s => s == "node.cmd" || s == "npm.cmd"
  , node_modules_isdir := true
  , install_exit := 0
  , service_exit := 0
  , environ := fun _ => none
  , interrupt_during_spawn := false
  , interrupt_during_wait := false
  , terminate_raises := false }

/-- A world interrupted during the wait, whose terminate call raises. -/
def w7 : World := { w0 with interrupt_during_wait := true, terminate_raises := true }

/-- A world with node_modules absent and a succeeding installer. -/
def w8 : World := { w0 with node_modules_isdir := false }

/-- A world with node_modules absent, a succeeding installer, and a
parent environment that already binds PORT. -/
def w9 : World :=
  { w0 with node_modules_isdir := false
          , environ := fun k => if k = "PORT" then some "1234" else none }

/-- A world interrupted during the spawn itself, before the process
handle is bound. -/
def w10 : World := { w0 with interrupt_during_spawn := true }

theorem main_need_fail (a : Args) (w : World)
    (hn : w.which "node" = true) (hm : w.which (exe w "npm") = true)
    (hneed : (a.force_install || !w.node_modules_isdir) = true)
    (hfail : w.install_exit ≠ 0) :
    main a w = ⟨w.install_exit, installPre w⟩ := by
  simp [main, check_cmd, hn, hm, hneed, hfail, installPre]

theorem main_need_ok (a : Args) (w : World)
    (hn : w.which "node" = true) (hm : w.which (exe w "npm") = true)
    (hneed : (a.force_install || !w.node_modules_isdir) = true)
    (hok : w.install_exit = 0) :
    main a w = startService a w (installPre w) := by
  simp [main, check_cmd, hn, hm, hneed, hok, installPre]

theorem main_noneed (a : Args) (w : World)
    (hn : w.which "node" = true) (hm : w.which (exe w "npm") = true)
    (hneed : (a.force_install || !w.node_modules_isdir) = false) :
    main a w = startService a w [] := by
  simp [main, check_cmd, hn, hm, hneed]

theorem startService_spawnItf (a : Args) (w : World) (pre : List Event)
    (hs : w.interrupt_during_spawn = true) :
    startService a w pre =
      ⟨0, pre ++ [Event.printed (status_line a), Event.printed stopping_msg,
                  Event.terminated false]⟩ := by
  simp [startService, hs]

theorem startService_waitItf (a : Args) (w : World) (pre : List Event)
    (hs : w.interrupt_during_spawn = false)
    (hw : w.interrupt_during_wait = true) :
    startService a w pre =
      ⟨0, pre ++ [Event.printed (status_line a),
                  Event.spawned (service_cmd a w) (child_env a w),
                  Event.printed stopping_msg,
                  Event.terminated (!w.terminate_raises)]⟩ := by
  simp [startService, hs, hw]

theorem startService_normal (a : Args) (w : World) (pre : List Event)
    (hs : w.interrupt_during_spawn = false)
    (hw : w.interrupt_during_wait = false) :
    startService a w pre =
      ⟨w.service_exit,
       pre ++ [Event.printed (status_line a),
               Event.spawned (service_cmd a w) (child_env a w),
               Event.exited w.service_exit]⟩ := by
  simp [startService, hs, hw]

example : (main args0 w0).exitCode = 0 := by rfl

example : (main args0 { w0 with service_exit := 5 }).exitCode = 5 := by rfl

example : (main args0 { w0 with node_modules_isdir := false, install_exit := 3 }).exitCode = 3 := by rfl

example : (main args0 w0).events.any isInstallSpawn = false := by rfl

example : (main args0 { w0 with node_modules_isdir := false }).events.any isInstallSpawn = true := by rfl

example :
    (main { args0 with force_install := true } w0).events.any isInstallSpawn = true := by rfl

example : (main args0 { w0 with which := fun _ => false }).exitCode = 1 := by rfl

example :
    (main args0 { w0 with interrupt_during_wait := true, service_exit := 9 }).exitCode = 0 := by
  rfl

/-- C1: for every invocation that passes both toolchain checks, the
install step runs if and only if the force flag is set or node_modules
is absent, and the trace splits so that every install spawn precedes
every service spawn. -/
theorem C1_install_iff (a : Args) (w : World)
    (hn : w.which "node" = true) (hm : w.which (exe w "npm") = true) :
    (main a w).events.any isInstallSpawn = (a.force_install || !w.node_modules_isdir)
    ∧ ∃ l₁ l₂, (main a w).events = l₁ ++ l₂
        ∧ l₁.any isServiceSpawn = false ∧ l₂.any isInstallSpawn = false := by
  cases hneed : (a.force_install || !w.node_modules_isdir) with
  | false =>
    rw [main_noneed a w hn hm hneed]
    cases hs : w.interrupt_during_spawn with
    | true =>
      rw [startService_spawnItf a w _ hs]
      exact ⟨rfl, [], _, rfl, rfl, rfl⟩
    | false =>
      cases hw : w.interrupt_during_wait with
      | true =>
        rw [startService_waitItf a w _ hs hw]
        refine ⟨?_, [Event.printed (status_line a)],
          [Event.spawned (service_cmd a w) (child_env a w),
           Event.printed stopping_msg, Event.terminated (!w.terminate_raises)],
          rfl, rfl, ?_⟩ <;>
          cases hd : a.dev <;> simp only [service_cmd, hd] <;> rfl
      | false =>
        rw [startService_normal a w _ hs hw]
        refine ⟨?_, [Event.printed (status_line a)],
          [Event.spawned (service_cmd a w) (child_env a w),
           Event.exited w.service_exit],
          rfl, rfl, ?_⟩ <;>
          cases hd : a.dev <;> simp only [service_cmd, hd] <;> rfl
  | true =>
    by_cases hok : w.install_exit = 0
    · rw [main_need_ok a w hn hm hneed hok]
      cases hs : w.interrupt_during_spawn with
      | true =>
        rw [startService_spawnItf a w _ hs]
        exact ⟨rfl, _, [], (List.append_nil _).symm, rfl, rfl⟩
      | false =>
        cases hw : w.interrupt_during_wait with
        | true =>
          rw [startService_waitItf a w _ hs hw]
          refine ⟨rfl, installPre w ++ [Event.printed (status_line a)],
            [Event.spawned (service_cmd a w) (child_env a w),
             Event.printed stopping_msg, Event.terminated (!w.terminate_raises)],
            rfl, rfl, ?_⟩
          cases hd : a.dev <;> simp only [service_cmd, hd] <;> rfl
        | false =>
          rw [startService_normal a w _ hs hw]
          refine ⟨rfl, installPre w ++ [Event.printed (status_line a)],
            [Event.spawned (service_cmd a w) (child_env a w),
             Event.exited w.service_exit],
            rfl, rfl, ?_⟩
          cases hd : a.dev <;> simp only [service_cmd, hd] <;> rfl
    · rw [main_need_fail a w hn hm hneed hok]
      exact ⟨rfl, _, [], (List.append_nil _).symm, rfl, rfl⟩

/-- Witness for C1 at a concrete posix world where node_modules exists
and the force flag is unset. -/
theorem C1_witness :
    (main args0 w0).events.any isInstallSpawn
        = (args0.force_install || !w0.node_modules_isdir)
    ∧ ∃ l₁ l₂, (main args0 w0).events = l₁ ++ l₂
        ∧ l₁.any isServiceSpawn = false ∧ l₂.any isInstallSpawn = false :=
  C1_install_iff args0 w0 (by decide) (by decide)

/-- C2: when the install step runs and exits with a non zero code, the
service child is never spawned and the launcher exit status equals the
installer exit code. -/
theorem C2_install_failure (a : Args) (w : World)
    (hn : w.which "node" = true) (hm : w.which (exe w "npm") = true)
    (hneed : (a.force_install || !w.node_modules_isdir) = true)
    (hfail : w.install_exit ≠ 0) :
    (main a w).exitCode = w.install_exit
    ∧ (main a w).events.any isServiceSpawn = false := by
  rw [main_need_fail a w hn hm hneed hfail]
  exact ⟨rfl, rfl⟩

/-- Witness for C2 at a concrete world whose installer exits with 7. -/
theorem C2_witness :
    (main args0 w2).exitCode = w2.install_exit
    ∧ (main args0 w2).events.any isServiceSpawn = false :=
  C2_install_failure args0 w2 (by decide) (by decide) (by decide) (by decide)

/-- C3: when the run reaches the service step and no interrupt occurs,
the launcher exit status equals the service child exit code. -/
theorem C3_service_exit (a : Args) (w : World)
    (hn : w.which "node" = true) (hm : w.which (exe w "npm") = true)
    (hinst : (a.force_install || !w.node_modules_isdir) = true → w.install_exit = 0)
    (hs : w.interrupt_during_spawn = false)
    (hw : w.interrupt_during_wait = false) :
    (main a w).exitCode = w.service_exit := by
  cases hneed : (a.force_install || !w.node_modules_isdir) with
  | false => rw [main_noneed a w hn hm hneed, startService_normal a w _ hs hw]
  | true =>
    rw [main_need_ok a w hn hm hneed (hinst hneed), startService_normal a w _ hs hw]

/-- Witness for C3 at a concrete world whose service child exits 42. -/
theorem C3_witness : (main args0 w3).exitCode = w3.service_exit :=
  C3_service_exit args0 w3 (by decide) (by decide) (by decide) (by decide) (by decide)

/-- C4: whenever the service child is spawned, its environment is the
parent environment with PORT overridden to the decimal string of the
resolved port, and nothing else changed. -/
theorem C4_port_env (a : Args) (w : World)
    (hn : w.which "node" = true) (hm : w.which (exe w "npm") = true)
    (hinst : (a.force_install || !w.node_modules_isdir) = true → w.install_exit = 0)
    (hs : w.interrupt_during_spawn = false) :
    Event.spawned (service_cmd a w) (child_env a w) ∈ (main a w).events
    ∧ child_env a w "PORT" = some (toString a.port)
    ∧ (∀ k, k ≠ "PORT" → child_env a w k = w.environ k) := by
  refine ⟨?_, by simp [child_env], fun k hk => by simp [child_env, hk]⟩
  cases hneed : (a.force_install || !w.node_modules_isdir) with
  | false =>
    rw [main_noneed a w hn hm hneed]
    cases hw : w.interrupt_during_wait with
    | true => rw [startService_waitItf a w _ hs hw]; simp
    | false => rw [startService_normal a w _ hs hw]; simp
  | true =>
    rw [main_need_ok a w hn hm hneed (hinst hneed)]
    cases hw : w.interrupt_during_wait with
    | true => rw [startService_waitItf a w _ hs hw]; simp [installPre]
    | false => rw [startService_normal a w _ hs hw]; simp [installPre]

/-- Witness for C4 in dev mode at port 8080. -/
theorem C4_witness :
    Event.spawned (service_cmd a4 w0) (child_env a4 w0) ∈ (main a4 w0).events
    ∧ child_env a4 w0 "PORT" = some (toString a4.port) :=
  ⟨(C4_port_env a4 w0 (by decide) (by decide) (by decide) (by decide)).1,
   (C4_port_env a4 w0 (by decide) (by decide) (by decide) (by decide)).2.1⟩

/-- C5: when the runtime or the package manager cannot be located, the
launcher prints one error line, spawns nothing and exits with status 1. -/
theorem C5_toolchain_missing (a : Args) (w : World)
    (h : w.which "node" = false
        ∨ (w.which "node" = true ∧ w.which (exe w "npm") = false)) :
    (main a w).exitCode = 1
    ∧ (main a w).events.any isSpawn = false
    ∧ ((main a w).events = [Event.printedErr node_err]
        ∨ (main a w).events = [Event.printedErr npm_err]) := by
  rcases h with h | ⟨hn, hm⟩
  · have hmain : main a w = ⟨1, [Event.printedErr node_err]⟩ := by
      simp [main, check_cmd, h]
    rw [hmain]
    exact ⟨rfl, rfl, Or.inl rfl⟩
  · have hmain : main a w = ⟨1, [Event.printedErr npm_err]⟩ := by
      simp [main, check_cmd, hn, hm]
    rw [hmain]
    exact ⟨rfl, rfl, Or.inr rfl⟩

/-- Witness for C5 at a world with an empty search path. -/
theorem C5_witness :
    (main args0 w5).exitCode = 1
    ∧ (main args0 w5).events.any isSpawn = false
    ∧ ((main args0 w5).events = [Event.printedErr node_err]
        ∨ (main args0 w5).events = [Event.printedErr npm_err]) :=
  C5_toolchain_missing args0 w5 (Or.inl (by decide))

/-- Every run that passes both toolchain checks starts its trace with a
printed line, never with a stderr line. -/
theorem main_pass_head (a : Args) (w : World)
    (hn : w.which "node" = true) (hm : w.which (exe w "npm") = true) :
    ∃ m rest, (main a w).events = Event.printed m :: rest := by
  cases hneed : (a.force_install || !w.node_modules_isdir) with
  | false =>
    rw [main_noneed a w hn hm hneed]
    cases hs : w.interrupt_during_spawn with
    | true => rw [startService_spawnItf a w _ hs]; exact ⟨_, _, rfl⟩
    | false =>
      cases hw : w.interrupt_during_wait with
      | true => rw [startService_waitItf a w _ hs hw]; exact ⟨_, _, rfl⟩
      | false => rw [startService_normal a w _ hs hw]; exact ⟨_, _, rfl⟩
  | true =>
    by_cases hok : w.install_exit = 0
    · rw [main_need_ok a w hn hm hneed hok]
      cases hs : w.interrupt_during_spawn with
      | true => rw [startService_spawnItf a w _ hs]; exact ⟨_, _, rfl⟩
      | false =>
        cases hw : w.interrupt_during_wait with
        | true => rw [startService_waitItf a w _ hs hw]; exact ⟨_, _, rfl⟩
        | false => rw [startService_normal a w _ hs hw]; exact ⟨_, _, rfl⟩
    · rw [main_need_fail a w hn hm hneed hok]
      exact ⟨_, _, rfl⟩

/-- C6 counterexample: in a Windows world where the suffix mapped names
of both tools are locatable but the bare names are not, the launcher
still exits 1 reporting the runtime missing, because the runtime check
searches the bare name while only the package manager check uses the
suffix mapped name. -/
theorem C6_counterexample :
    w6.which (exe w6 "node") = true
    ∧ w6.which (exe w6 "npm") = true
    ∧ main args0 w6 = ⟨1, [Event.printedErr node_err]⟩ :=
  ⟨by decide, by decide, rfl⟩

/-- C6 amended: the launcher fails with the runtime error exactly when
the bare name node is not locatable, and, when node is locatable, fails
with the package manager error exactly when the suffix mapped name of
npm is not locatable; the Windows suffix is applied to the package
manager search only. -/
theorem C6_suffix_amended (a : Args) (w : World) :
    (main a w = ⟨1, [Event.printedErr node_err]⟩ ↔ w.which "node" = false)
    ∧ (w.which "node" = true →
        (main a w = ⟨1, [Event.printedErr npm_err]⟩
          ↔ w.which (exe w "npm") = false)) := by
  constructor
  · constructor
    · intro h
      cases hb : w.which "node" with
      | false => rfl
      | true =>
        exfalso
        cases hc : w.which (exe w "npm") with
        | false =>
          have h2 : main a w = ⟨1, [Event.printedErr npm_err]⟩ := by
            simp [main, check_cmd, hb, hc]
          rw [h2] at h
          simp [node_err, npm_err] at h
        | true =>
          obtain ⟨m, rest, hm'⟩ := main_pass_head a w hb hc
          rw [h] at hm'
          simp at hm'
    · intro h
      simp [main, check_cmd, h]
  · intro hn
    constructor
    · intro h
      cases hc : w.which (exe w "npm") with
      | false => rfl
      | true =>
        exfalso
        obtain ⟨m, rest, hm'⟩ := main_pass_head a w hn hc
        rw [h] at hm'
        simp at hm'
    · intro h
      simp [main, check_cmd, hn, h]

/-- Witness for the amended C6 at a world with an empty search path. -/
theorem C6_amended_witness :
    main args0 w5 = ⟨1, [Event.printedErr node_err]⟩ :=
  (C6_suffix_amended args0 w5).1.mpr (by decide)

/-- C7: an interrupt during the wait makes the launcher print the
stopping notice, attempt a best effort terminate whose failure is
swallowed, and exit with status 0. -/
theorem C7_interrupt_wait (a : Args) (w : World)
    (hn : w.which "node" = true) (hm : w.which (exe w "npm") = true)
    (hinst : (a.force_install || !w.node_modules_isdir) = true → w.install_exit = 0)
    (hs : w.interrupt_during_spawn = false)
    (hw : w.interrupt_during_wait = true) :
    (main a w).exitCode = 0
    ∧ Event.printed stopping_msg ∈ (main a w).events
    ∧ Event.terminated (!w.terminate_raises) ∈ (main a w).events := by
  cases hneed : (a.force_install || !w.node_modules_isdir) with
  | false =>
    rw [main_noneed a w hn hm hneed, startService_waitItf a w _ hs hw]
    exact ⟨rfl, by simp, by simp⟩
  | true =>
    rw [main_need_ok a w hn hm hneed (hinst hneed), startService_waitItf a w _ hs hw]
    exact ⟨rfl, by simp [installPre], by simp [installPre]⟩

/-- Witness for C7 at a world whose terminate call raises. -/
theorem C7_witness :
    (main args0 w7).exitCode = 0
    ∧ Event.printed stopping_msg ∈ (main args0 w7).events
    ∧ Event.terminated (!w7.terminate_raises) ∈ (main args0 w7).events :=
  C7_interrupt_wait args0 w7 (by decide) (by decide) (by decide) (by decide) (by decide)

/-- C8: when the install step is triggered, the trace begins with the
install spawn and its completion, no further install spawn occurs, and
a service spawn can occur afterwards only when the installer succeeded. -/
theorem C8_install_before_service (a : Args) (w : World)
    (hn : w.which "node" = true) (hm : w.which (exe w "npm") = true)
    (hneed : (a.force_install || !w.node_modules_isdir) = true) :
    ∃ post, (main a w).events
        = Event.printed install_msg
          :: Event.spawned [exe w "npm", "install"] w.environ
          :: Event.exited w.install_exit :: post
      ∧ post.any isInstallSpawn = false
      ∧ (post.any isServiceSpawn = true → w.install_exit = 0) := by
  by_cases hok : w.install_exit = 0
  · rw [main_need_ok a w hn hm hneed hok]
    cases hs : w.interrupt_during_spawn with
    | true =>
      rw [startService_spawnItf a w _ hs]
      exact ⟨_, rfl, rfl, fun _ => hok⟩
    | false =>
      cases hw : w.interrupt_during_wait with
      | true =>
        rw [startService_waitItf a w _ hs hw]
        refine ⟨_, rfl, ?_, fun _ => hok⟩
        cases hd : a.dev <;> simp only [service_cmd, hd] <;> rfl
      | false =>
        rw [startService_normal a w _ hs hw]
        refine ⟨_, rfl, ?_, fun _ => hok⟩
        cases hd : a.dev <;> simp only [service_cmd, hd] <;> rfl
  · rw [main_need_fail a w hn hm hneed hok]
    exact ⟨[], rfl, rfl, fun hserv => by simp at hserv⟩

/-- Witness for C8 at a world with node_modules absent. -/
theorem C8_witness :
    ∃ post, (main args0 w8).events
        = Event.printed install_msg
          :: Event.spawned [exe w8 "npm", "install"] w8.environ
          :: Event.exited w8.install_exit :: post
      ∧ post.any isInstallSpawn = false
      ∧ (post.any isServiceSpawn = true → w8.install_exit = 0) :=
  C8_install_before_service args0 w8 (by decide) (by decide) (by decide)

/-- C9: the install child is spawned with the unmodified parent
environment, and any install spawn in the trace carries exactly that
environment; the PORT override is built only later, for the service. -/
theorem C9_install_env (a : Args) (w : World)
    (hn : w.which "node" = true) (hm : w.which (exe w "npm") = true)
    (hneed : (a.force_install || !w.node_modules_isdir) = true) :
    Event.spawned [exe w "npm", "install"] w.environ ∈ (main a w).events
    ∧ ∀ e, Event.spawned [exe w "npm", "install"] e ∈ (main a w).events
        → e = w.environ := by
  by_cases hok : w.install_exit = 0
  · rw [main_need_ok a w hn hm hneed hok]
    cases hs : w.interrupt_during_spawn with
    | true =>
      rw [startService_spawnItf a w _ hs]
      refine ⟨by simp [installPre], fun e he => ?_⟩
      simp [installPre] at he
      exact he
    | false =>
      cases hw : w.interrupt_during_wait with
      | true =>
        rw [startService_waitItf a w _ hs hw]
        refine ⟨by simp [installPre], fun e he => ?_⟩
        cases hd : a.dev <;> simp only [service_cmd, hd] at he <;>
          simp [installPre] at he <;> exact he
      | false =>
        rw [startService_normal a w _ hs hw]
        refine ⟨by simp [installPre], fun e he => ?_⟩
        cases hd : a.dev <;> simp only [service_cmd, hd] at he <;>
          simp [installPre] at he <;> exact he
  · rw [main_need_fail a w hn hm hneed hok]
    refine ⟨by simp [installPre], fun e he => ?_⟩
    simp [installPre] at he
    exact he

/-- Witness for C9 at a world whose parent environment binds PORT. -/
theorem C9_witness :
    Event.spawned [exe w9 "npm", "install"] w9.environ ∈ (main args0 w9).events :=
  (C9_install_env args0 w9 (by decide) (by decide) (by decide)).1

/-- C10: an interrupt landing inside the spawn itself, before the handle
is bound, makes the terminate attempt raise on the unbound handle; the
exception is swallowed, no service child is ever spawned, and the
launcher exits with status 0 after the status line was printed. -/
theorem C10_interrupt_spawn (a : Args) (w : World)
    (hn : w.which "node" = true) (hm : w.which (exe w "npm") = true)
    (hinst : (a.force_install || !w.node_modules_isdir) = true → w.install_exit = 0)
    (hs : w.interrupt_during_spawn = true) :
    (main a w).exitCode = 0
    ∧ Event.printed (status_line a) ∈ (main a w).events
    ∧ Event.terminated false ∈ (main a w).events
    ∧ (main a w).events.any isServiceSpawn = false := by
  cases hneed : (a.force_install || !w.node_modules_isdir) with
  | false =>
    rw [main_noneed a w hn hm hneed, startService_spawnItf a w _ hs]
    exact ⟨rfl, by simp, by simp, rfl⟩
  | true =>
    rw [main_need_ok a w hn hm hneed (hinst hneed), startService_spawnItf a w _ hs]
    exact ⟨rfl, by simp [installPre], by simp [installPre], rfl⟩

/-- Witness for C10 at a world interrupted during the spawn. -/
theorem C10_witness :
    (main args0 w10).exitCode = 0
    ∧ Event.printed (status_line args0) ∈ (main args0 w10).events
    ∧ Event.terminated false ∈ (main args0 w10).events
    ∧ (main args0 w10).events.any isServiceSpawn = false :=
  C10_interrupt_spawn args0 w10 (by decide) (by decide) (by decide) (by decide)

end RunPy
